import Mathlib

/-
Verification of the CLI command layer of the spoofax-releng tool
(src/releng/metaborg/releng/cmd.py), a release-engineering orchestrator
for a fleet of git repositories.  Each subcommand's `main` is embedded as
a pure Lean function from its switches and the answers of the interactive
prompts to a result record: the returned exit code, the printed lines,
and the ordered trace of backend invocations and prompts.
-/

namespace Releng

/-- The remote kind enumeration from `metaborg.util.git.RemoteType`
(spec §3 RemoteKind: SSH or HTTP). -/
inductive RemoteType where
  | SSH
  | HTTP
  deriving DecidableEq

/-- One observable step of a command run: either an interactive prompt
(`YesNo`, `YesNoTwice`, `YesNoTrice` from `metaborg.util.prompt`, recorded
with the effective answer the user gave) or an invocation of one of the
backend operations imported by `cmd.py`. -/
inductive Event where
  | promptYesNo (answer : Bool)
  | promptYesNoTwice (answer : Bool)
  | promptYesNoTrice (answer : Bool)
  | checkoutAll
  | resetAll (toRemote : Bool)
  | cleanAll
  | updateAll (depth : Option Int)
  | setRemoteAll (toType : RemoteType)
  | setVersions (fromVersion toVersion : String)
      (setEclipseVersions dryRun commit : Bool)
  | releaseCall (releaseBranch developBranch curDevelopVersion
      nextReleaseVersion nextDevelopVersion : String)
  | repoChangedCall (destination : String)
  deriving DecidableEq

/-- Whether an event is an interactive confirmation prompt. -/
def Event.isPrompt : Event → Bool
  | Event.promptYesNo _ => true
  | Event.promptYesNoTwice _ => true
  | Event.promptYesNoTrice _ => true
  | _ => false

/-- The observable outcome of one subcommand `main`: exit code, lines
printed to stdout, and the ordered event trace. -/
structure CmdResult where
  exitCode : Nat
  printed : List String
  events : List Event
  deriving DecidableEq

/-- `MetaborgRelengSetRemote.main` (cmd.py lines 72-85): with neither
flag, error and exit 1; with `-s`/`--ssh`, `SetRemoteAll` with SSH; else
with `-h`/`--http`, `SetRemoteAll` with HTTP.  The two flags are mutually
exclusive at the CLI layer (`excludes`). -/
def setRemoteMain (toSsh toHttp : Bool) : CmdResult :=
  if !toSsh && !toHttp then
    { exitCode := 1
      printed := ["Must choose between SSH (-s) or HTTP (-h)"]
      events := [] }
  else
    let toType := if toSsh then RemoteType.SSH else RemoteType.HTTP
    { exitCode := 0
      printed := ["Setting remotes for all submodules"]
      events := [Event.setRemoteAll toType] }

/-- `MetaborgRelengCleanUpdate.main` (cmd.py lines 100-114): without
`-y`, warn and gate on `YesNoTrice` (no → exit 1); then `CheckoutAll`,
`ResetAll(toRemote=True)`, `CheckoutAll`, `CleanAll`,
`UpdateAll(depth)`, exit 0. -/
def cleanUpdateMain (confirmPrompt answer : Bool) (depth : Option Int) :
    CmdResult :=
  if !confirmPrompt then
    if !answer then
      { exitCode := 1
        printed := ["WARNING: This will DELETE UNCOMMITED CHANGES, DELETE UNPUSHED COMMITS, and DELETE UNTRACKED FILES. Do you want to continue?"]
        events := [Event.promptYesNoTrice answer] }
    else
      { exitCode := 0
        printed := ["WARNING: This will DELETE UNCOMMITED CHANGES, DELETE UNPUSHED COMMITS, and DELETE UNTRACKED FILES. Do you want to continue?",
          "Resetting, cleaning, and updating all submodules"]
        events := [Event.promptYesNoTrice answer, Event.checkoutAll,
          Event.resetAll true, Event.checkoutAll, Event.cleanAll,
          Event.updateAll depth] }
  else
    { exitCode := 0
      printed := ["Resetting, cleaning, and updating all submodules"]
      events := [Event.checkoutAll, Event.resetAll true, Event.checkoutAll,
        Event.cleanAll, Event.updateAll depth] }

/-- `MetaborgRelengClean.main` (cmd.py lines 224-231): without `-y`,
warn and gate on `YesNoTwice` (no → exit 1); then `CleanAll`, exit 0. -/
def cleanMain (confirmPrompt answer : Bool) : CmdResult :=
  if !confirmPrompt then
    if !answer then
      { exitCode := 1
        printed := ["Cleaning all submodules",
          "WARNING: This will DELETE UNTRACKED FILES, do you want to continue?"]
        events := [Event.promptYesNoTwice answer] }
    else
      { exitCode := 0
        printed := ["Cleaning all submodules",
          "WARNING: This will DELETE UNTRACKED FILES, do you want to continue?"]
        events := [Event.promptYesNoTwice answer, Event.cleanAll] }
  else
    { exitCode := 0
      printed := ["Cleaning all submodules"]
      events := [Event.cleanAll] }

/-- `MetaborgRelengReset.main` (cmd.py lines 245-258): without `-y`,
gate on `YesNoTrice` when `-r`/`--remote` is set and on `YesNoTwice`
otherwise (no → exit 1); then `ResetAll(toRemote)`, exit 0. -/
def resetMain (confirmPrompt toRemote answer : Bool) : CmdResult :=
  if toRemote then
    if !confirmPrompt then
      if !answer then
        { exitCode := 1
          printed := ["Resetting all submodules",
            "WARNING: This will DELETE UNCOMMITED CHANGES and DELETE UNPUSHED COMMITS, do you want to continue?"]
          events := [Event.promptYesNoTrice answer] }
      else
        { exitCode := 0
          printed := ["Resetting all submodules",
            "WARNING: This will DELETE UNCOMMITED CHANGES and DELETE UNPUSHED COMMITS, do you want to continue?"]
          events := [Event.promptYesNoTrice answer, Event.resetAll true] }
    else
      { exitCode := 0
        printed := ["Resetting all submodules"]
        events := [Event.resetAll true] }
  else
    if !confirmPrompt then
      if !answer then
        { exitCode := 1
          printed := ["Resetting all submodules",
            "WARNING: This will DELETE UNCOMMITED CHANGES, do you want to continue?"]
          events := [Event.promptYesNoTwice answer] }
      else
        { exitCode := 0
          printed := ["Resetting all submodules",
            "WARNING: This will DELETE UNCOMMITED CHANGES, do you want to continue?"]
          events := [Event.promptYesNoTwice answer, Event.resetAll false] }
    else
      { exitCode := 0
        printed := ["Resetting all submodules"]
        events := [Event.resetAll false] }

/-- `MetaborgRelengSetVersions.main` (cmd.py lines 279-289), embedded
exactly as written: the guard is `if self.confirmPrompt and not
self.dryRun:` — the prompt branch runs only when the `-y`/`--yes` flag
IS given — and inside it only the non-commit branch actually calls
`YesNo()`; the commit branch prints the warning question without reading
an answer.  In every other case `SetVersions(repo, fromVersion,
toVersion, True, dryRun, commit)` is called unconditionally. -/
def setVersionsMain (fromVersion toVersion : String)
    (commit dryRun confirmPrompt answer : Bool) : CmdResult :=
  if confirmPrompt && !dryRun then
    if commit then
      { exitCode := 0
        printed := ["WARNING: This will CHANGE and COMMIT pom.xml, MANIFEST.MF, and feature.xml files, do you want to continue?"]
        events := [Event.setVersions fromVersion toVersion true dryRun commit] }
    else
      if !answer then
        { exitCode := 1
          printed := ["WARNING: This will CHANGE pom.xml, MANIFEST.MF, and feature.xml files, do you want to continue?"]
          events := [Event.promptYesNo answer] }
      else
        { exitCode := 0
          printed := ["WARNING: This will CHANGE pom.xml, MANIFEST.MF, and feature.xml files, do you want to continue?"]
          events := [Event.promptYesNo answer,
            Event.setVersions fromVersion toVersion true dryRun commit] }
  else
    { exitCode := 0
      printed := []
      events := [Event.setVersions fromVersion toVersion true dryRun commit] }

/-- Python truthiness of an optional string switch value (`if
self.qualifier:` in cmd.py line 452): `None` and the empty string are
falsy, every other string is truthy. -/
def pyTruthy : Option String → Bool
  | none => false
  | some s => !(s == "")

/-- The observable outcome of `MetaborgRelengBuild.main`: exit code,
printed lines, the argument lists of the `builder.build` invocations,
and the value assigned to `builder.qualifier` (`none` when the
assignment was never reached). -/
structure BuildResult where
  exitCode : Nat
  printed : List String
  buildCalls : List (List String)
  assignedQualifier : Option (Option String)
  deriving DecidableEq

/-- `MetaborgRelengBuild.main` (cmd.py lines 429-479), restricted to the
behaviour the claims are about: with zero components, print the target
list and exit 1 before `builder.build` is reached; otherwise set
`builder.qualifier` (the `-q` value when truthy, else
`create_now_qualifier(repo)` when `-n` is set, else `None`) and run
`builder.build(*components)`, printing the `RuntimeError` message and
exiting 1 on failure, exiting 0 on success.  The external calls are
inputs: `targets` is `builder.targets`, `nowQualifierValue` the result
of `create_now_qualifier(repo)`, and `buildOutcome` what
`builder.build` does. -/
def buildMain (components targets : List String)
    (qualifierArg : Option String) (nowQualifier : Bool)
    (nowQualifierValue : String) (buildOutcome : Except String Unit) :
    BuildResult :=
  if components.length = 0 then
    { exitCode := 1
      printed := ["No components specified, pass one or more of the following components to build:",
        String.intercalate ", " targets]
      buildCalls := []
      assignedQualifier := none }
  else
    let qualifier : Option String :=
      if pyTruthy qualifierArg then qualifierArg
      else if nowQualifier then some nowQualifierValue
      else none
    match buildOutcome with
    | Except.ok _ =>
      { exitCode := 0
        printed := []
        buildCalls := [components]
        assignedQualifier := some qualifier }
    | Except.error detail =>
      { exitCode := 1
        printed := [detail]
        buildCalls := [components]
        assignedQualifier := some qualifier }

/-- `MetaborgRelengRelease.main` (cmd.py lines 500-514):
`scriptInsideRepo` is the test `CommonPrefix([repoDir, scriptDir]) ==
repoDir`, i.e. whether the directory holding the script lies inside the
target repository's working tree.  When it holds, print the error and
exit 1 without calling `Release`; otherwise call `Release` with the five
branch/version switches and exit 0. -/
def releaseMain (scriptInsideRepo : Bool)
    (releaseBranch developBranch curDevelopVersion nextReleaseVersion
      nextDevelopVersion : String) : CmdResult :=
  if scriptInsideRepo then
    { exitCode := 1
      printed := ["Performing interactive release",
        "Cannot perform release on the same repository this script is contained in, please set another repository using the -r/--repo switch."]
      events := [] }
  else
    { exitCode := 0
      printed := ["Performing interactive release"]
      events := [Event.releaseCall releaseBranch developBranch
        curDevelopVersion nextReleaseVersion nextDevelopVersion] }

/-- Modelled from the spec: `HasChanged(fleet, recordPath) → (changed,
qualifier)` of §4.2 — the function `repo_changed` lives in
`metaborg.util.git`, which is not under `src/`.  It computes the current
qualifier, reads the previously persisted QualifierRecord (absent =
treated as different from any qualifier), compares by exact string
equality, and, as a side effect, when different overwrites the record
with the newly computed qualifier.  Fleet state is abstracted to the
current qualifier string and the record file to an `Option String`; the
function returns the `(changed, qualifier)` pair together with the new
record contents. -/
def repo_changed (currentQualifier : String) (record : Option String) :
    (Bool × String) × Option String :=
  let changed :=
    match record with
    | none => true
    | some r => !(r == currentQualifier)
  ((changed, currentQualifier),
   if changed then some currentQualifier else record)

/-- `MetaborgRelengChanged.main` (cmd.py lines 758-763): call
`repo_changed(repo, destination)` first; if `-f`/`--force-change` is set
or the qualifier changed, print the qualifier and exit 0, otherwise exit
1.  Returns the command result paired with the new contents of the
persisted qualifier record. -/
def changedMain (forceChange : Bool) (destination currentQualifier : String)
    (record : Option String) : CmdResult × Option String :=
  let r := repo_changed currentQualifier record
  (if forceChange || r.1.1 then
    { exitCode := 0
      printed := [r.1.2]
      events := [Event.repoChangedCall destination] }
   else
    { exitCode := 1
      printed := []
      events := [Event.repoChangedCall destination] },
   r.2)

/-- Claim C1, evaluated at the failing input: invoked without `-y` and
without dry-run, set-versions shows no prompt and calls `SetVersions`
unconditionally (even though the user would answer no); and with `-y`
given (non-commit case, answer no) it does prompt and aborts with exit 1
before `SetVersions` — the exact opposite of the claimed gating, because
the code tests `if self.confirmPrompt` instead of
`if not self.confirmPrompt`. -/
theorem setVersionsMain_inverted_gate :
    setVersionsMain "2.0.0" "2.1.0" false false false false =
      { exitCode := 0
        printed := []
        events := [Event.setVersions "2.0.0" "2.1.0" true false false] } ∧
    (setVersionsMain "2.0.0" "2.1.0" false false true false).exitCode = 1 ∧
    (setVersionsMain "2.0.0" "2.1.0" false false true false).events =
      [Event.promptYesNo false] :=
  ⟨rfl, rfl, rfl⟩

/-- Claim C2, counterexample: with the force flag unset and the persisted
record equal to the current qualifier, the changed command exits with
code 1, yet its whole run consists of the single successful
`repo_changed` call — no confirmation prompt (so no user abort), no
validation step and no backend failure — refuting the clause that exit
code 1 is reserved for user abort, validation failure, or backend
failure. -/
theorem changedMain_unchanged_exit1_cx :
    ((changedMain false ".qualifier" "master-20230103-120000"
        (some "master-20230103-120000")).1.exitCode = 1) ∧
    ((changedMain false ".qualifier" "master-20230103-120000"
        (some "master-20230103-120000")).1.events =
      [Event.repoChangedCall ".qualifier"]) ∧
    ((changedMain false ".qualifier" "master-20230103-120000"
        (some "master-20230103-120000")).1.events.any Event.isPrompt = false) :=
  ⟨rfl, rfl, rfl⟩

/-- Claim C2, amended: if the force flag is set or `repo_changed` reports
a change, the qualifier is printed and the exit code is 0; otherwise the
exit code is 1 — and that exit code 1 signals "no change detected", not a
user abort (the run contains no prompt), validation failure or backend
failure. -/
theorem changedMain_behavior (f : Bool) (dest q : String)
    (rec : Option String) :
    ((f || (repo_changed q rec).1.1) = true →
       (changedMain f dest q rec).1.exitCode = 0 ∧
       (changedMain f dest q rec).1.printed = [q]) ∧
    ((f || (repo_changed q rec).1.1) = false →
       (changedMain f dest q rec).1.exitCode = 1 ∧
       (changedMain f dest q rec).1.printed = [] ∧
       (changedMain f dest q rec).1.events.any Event.isPrompt = false) := by
  cases hc : (repo_changed q rec).1.1 <;> cases f <;>
    simp [changedMain, hc, Event.isPrompt] <;> rfl

/-- Witness for `changedMain_behavior` at a concrete input (no record
yet, so the qualifier counts as changed). -/
theorem changedMain_behavior_witness :
    (changedMain false ".qualifier" "develop-20230101-000000" none).1.exitCode = 0 ∧
    (changedMain false ".qualifier" "develop-20230101-000000" none).1.printed =
      ["develop-20230101-000000"] :=
  (changedMain_behavior false ".qualifier" "develop-20230101-000000" none).1 rfl

/-- Claim C3: when the script directory lies inside the target
repository (the common path prefix equals the repository directory), the
release command prints the error and exits 1 without calling `Release`;
otherwise it calls `Release` with the five branch/version parameters and
exits 0. -/
theorem releaseMain_guard (inside : Bool) (rb db cdv nrv ndv : String) :
    (inside = true →
       (releaseMain inside rb db cdv nrv ndv).exitCode = 1 ∧
       (releaseMain inside rb db cdv nrv ndv).events = [] ∧
       "Cannot perform release on the same repository this script is contained in, please set another repository using the -r/--repo switch." ∈
         (releaseMain inside rb db cdv nrv ndv).printed) ∧
    (inside = false →
       (releaseMain inside rb db cdv nrv ndv).exitCode = 0 ∧
       (releaseMain inside rb db cdv nrv ndv).events =
         [Event.releaseCall rb db cdv nrv ndv]) := by
  cases inside <;> simp [releaseMain]

/-- Witness for `releaseMain_guard` at concrete branch and version
arguments, in both the guarded and the unguarded case. -/
theorem releaseMain_guard_witness :
    (releaseMain true "release/2.5" "develop" "2.5.0-SNAPSHOT" "2.5.0"
      "2.6.0-SNAPSHOT").exitCode = 1 ∧
    (releaseMain false "release/2.5" "develop" "2.5.0-SNAPSHOT" "2.5.0"
      "2.6.0-SNAPSHOT").exitCode = 0 :=
  ⟨((releaseMain_guard true "release/2.5" "develop" "2.5.0-SNAPSHOT" "2.5.0"
      "2.6.0-SNAPSHOT").1 rfl).1,
   ((releaseMain_guard false "release/2.5" "develop" "2.5.0-SNAPSHOT" "2.5.0"
      "2.6.0-SNAPSHOT").2 rfl).1⟩

/-- Claim C4: with `-y`, clean and reset run their destructive fleet
operation without any prompt; without `-y` a prompt always occurs first,
a negative answer exits 1 with the operation never invoked, and an
affirmative answer runs the operation after the prompt. -/
theorem clean_reset_confirmation (toRemote answer : Bool) :
    ((cleanMain true answer).events = [Event.cleanAll]) ∧
    ((resetMain true toRemote answer).events = [Event.resetAll toRemote]) ∧
    ((cleanMain false answer).events.any Event.isPrompt = true) ∧
    ((resetMain false toRemote answer).events.any Event.isPrompt = true) ∧
    (answer = false →
       (cleanMain false answer).exitCode = 1 ∧
       Event.cleanAll ∉ (cleanMain false answer).events ∧
       (resetMain false toRemote answer).exitCode = 1 ∧
       Event.resetAll true ∉ (resetMain false toRemote answer).events ∧
       Event.resetAll false ∉ (resetMain false toRemote answer).events) ∧
    (answer = true →
       (cleanMain false answer).events =
         [Event.promptYesNoTwice true, Event.cleanAll] ∧
       (resetMain false toRemote answer).events =
         [(if toRemote then Event.promptYesNoTrice true
           else Event.promptYesNoTwice true), Event.resetAll toRemote]) := by
  cases toRemote <;> cases answer <;> decide

/-- Witness for `clean_reset_confirmation`: a negative answer without
`-y` aborts clean and reset-to-remote with exit 1 and no destructive
operation. -/
theorem clean_reset_confirmation_witness :
    (cleanMain false false).exitCode = 1 ∧
    Event.cleanAll ∉ (cleanMain false false).events ∧
    (resetMain false true false).exitCode = 1 := by
  have h := clean_reset_confirmation true false
  obtain ⟨-, -, -, -, h5, -⟩ := h
  obtain ⟨a, b, c, -, -⟩ := h5 rfl
  exact ⟨a, b, c⟩

/-- Claim C5: with at least one component, a `RuntimeError` from
`builder.build` makes the build command print exactly the error message
and exit 1, while a normal return exits 0 (printing nothing further). -/
theorem buildMain_backend_outcome (components targets : List String)
    (qualifierArg : Option String) (nowQualifier : Bool)
    (nowQualifierValue msg : String) (h : components ≠ []) :
    (buildMain components targets qualifierArg nowQualifier nowQualifierValue
      (Except.error msg)).exitCode = 1 ∧
    (buildMain components targets qualifierArg nowQualifier nowQualifierValue
      (Except.error msg)).printed = [msg] ∧
    (buildMain components targets qualifierArg nowQualifier nowQualifierValue
      (Except.ok ())).exitCode = 0 ∧
    (buildMain components targets qualifierArg nowQualifier nowQualifierValue
      (Except.ok ())).printed = [] := by
  cases components with
  | nil => exact absurd rfl h
  | cons c cs => simp [buildMain]

/-- Witness for `buildMain_backend_outcome` at a concrete failing
backend invocation. -/
theorem buildMain_backend_outcome_witness :
    (buildMain ["spoofax"] ["spoofax", "java"] none false "develop-now"
      (Except.error "Maven build failed")).exitCode = 1 ∧
    (buildMain ["spoofax"] ["spoofax", "java"] none false "develop-now"
      (Except.error "Maven build failed")).printed = ["Maven build failed"] := by
  have h := buildMain_backend_outcome ["spoofax"] ["spoofax", "java"] none
    false "develop-now" "Maven build failed" (by decide)
  exact ⟨h.1, h.2.1⟩

/-- Claim C6: with zero component arguments, the build command prints
the list of available targets and exits 1 without `builder.build` ever
being invoked. -/
theorem buildMain_no_components (targets : List String)
    (qualifierArg : Option String) (nowQualifier : Bool)
    (nowQualifierValue : String) (buildOutcome : Except String Unit) :
    (buildMain [] targets qualifierArg nowQualifier nowQualifierValue
      buildOutcome).exitCode = 1 ∧
    (buildMain [] targets qualifierArg nowQualifier nowQualifierValue
      buildOutcome).buildCalls = [] ∧
    (buildMain [] targets qualifierArg nowQualifier nowQualifierValue
      buildOutcome).printed =
      ["No components specified, pass one or more of the following components to build:",
       String.intercalate ", " targets] := by
  simp [buildMain]

/-- Claim C7, counterexample: the `--qualifier` switch given with the
empty string is falsy under the Python truthiness test `if
self.qualifier:`, so `builder.qualifier` receives `None` instead of the
exact given string. -/
theorem buildMain_qualifier_empty_cx :
    (buildMain ["spoofax"] ["spoofax"] (some "") false "develop-now"
      (Except.ok ())).assignedQualifier = some none ∧
    (buildMain ["spoofax"] ["spoofax"] (some "") false "develop-now"
      (Except.ok ())).assignedQualifier ≠ some (some "") :=
  ⟨rfl, by decide⟩

/-- Claim C7, amended: when the build proceeds, `builder.qualifier` is
the `--qualifier` value when that switch is given with a non-empty
string; otherwise (switch absent, or given as the empty string and thus
treated as absent) the `create_now_qualifier(repo)` result when
`--now-qualifier` is set; otherwise `None`. -/
theorem buildMain_qualifier_choice (components targets : List String)
    (s : String) (qualifierArg : Option String) (nowQualifier : Bool)
    (nowQualifierValue : String) (buildOutcome : Except String Unit)
    (h : components ≠ []) :
    (qualifierArg = some s → s ≠ "" →
       (buildMain components targets qualifierArg nowQualifier
         nowQualifierValue buildOutcome).assignedQualifier = some (some s)) ∧
    (pyTruthy qualifierArg = false → nowQualifier = true →
       (buildMain components targets qualifierArg nowQualifier
         nowQualifierValue buildOutcome).assignedQualifier =
         some (some nowQualifierValue)) ∧
    (pyTruthy qualifierArg = false → nowQualifier = false →
       (buildMain components targets qualifierArg nowQualifier
         nowQualifierValue buildOutcome).assignedQualifier = some none) := by
  cases components with
  | nil => exact absurd rfl h
  | cons c cs =>
    refine ⟨?_, ?_, ?_⟩
    · rintro rfl hs
      have ht : pyTruthy (some s) = true := by simp [pyTruthy, hs]
      cases buildOutcome <;> simp [buildMain, ht]
    · intro hf hn
      cases buildOutcome <;> simp [buildMain, hf, hn]
    · intro hf hn
      cases buildOutcome <;> simp [buildMain, hf, hn]

/-- Witness for `buildMain_qualifier_choice` at concrete inputs covering
the three branches. -/
theorem buildMain_qualifier_choice_witness :
    (buildMain ["spoofax"] ["spoofax"] (some "q1") false "develop-now"
      (Except.ok ())).assignedQualifier = some (some "q1") ∧
    (buildMain ["spoofax"] ["spoofax"] none true "develop-now"
      (Except.ok ())).assignedQualifier = some (some "develop-now") ∧
    (buildMain ["spoofax"] ["spoofax"] none false "develop-now"
      (Except.ok ())).assignedQualifier = some none :=
  ⟨(buildMain_qualifier_choice ["spoofax"] ["spoofax"] "q1" (some "q1") false
      "develop-now" (Except.ok ()) (by decide)).1 rfl (by decide),
   (buildMain_qualifier_choice ["spoofax"] ["spoofax"] "q1" none true
      "develop-now" (Except.ok ()) (by decide)).2.1 rfl rfl,
   (buildMain_qualifier_choice ["spoofax"] ["spoofax"] "q1" none false
      "develop-now" (Except.ok ()) (by decide)).2.2 rfl rfl⟩

/-- Claim C8: with neither flag, set-remote errors with exit 1 and never
calls `SetRemoteAll`; with `--ssh` it calls `SetRemoteAll` with SSH, and
with `--http` (the flags being mutually exclusive, so `--ssh` absent) it
calls `SetRemoteAll` with HTTP, exiting 0 in both flag cases. -/
theorem setRemoteMain_flags (toSsh toHttp : Bool) :
    (toSsh = false → toHttp = false →
       (setRemoteMain toSsh toHttp).exitCode = 1 ∧
       (setRemoteMain toSsh toHttp).events = []) ∧
    (toSsh = true →
       (setRemoteMain toSsh toHttp).exitCode = 0 ∧
       (setRemoteMain toSsh toHttp).events =
         [Event.setRemoteAll RemoteType.SSH]) ∧
    (toSsh = false → toHttp = true →
       (setRemoteMain toSsh toHttp).exitCode = 0 ∧
       (setRemoteMain toSsh toHttp).events =
         [Event.setRemoteAll RemoteType.HTTP]) := by
  cases toSsh <;> cases toHttp <;> decide

/-- Witness for `setRemoteMain_flags` at the three concrete flag
combinations reachable from the CLI. -/
theorem setRemoteMain_flags_witness :
    (setRemoteMain false false).exitCode = 1 ∧
    (setRemoteMain true false).events = [Event.setRemoteAll RemoteType.SSH] ∧
    (setRemoteMain false true).events = [Event.setRemoteAll RemoteType.HTTP] :=
  ⟨((setRemoteMain_flags false false).1 rfl rfl).1,
   ((setRemoteMain_flags true false).2.1 rfl).2,
   ((setRemoteMain_flags false true).2.2 rfl rfl).2⟩

/-- Claim C9: once past the confirmation gate (the `-y` flag set, or the
triple yes-prompt answered affirmatively), clean-update performs exactly
`CheckoutAll`, `ResetAll(toRemote=True)`, `CheckoutAll`, `CleanAll`,
`UpdateAll(depth)` in that order and exits 0. -/
theorem cleanUpdateMain_sequence (confirmPrompt answer : Bool)
    (depth : Option Int) (h : confirmPrompt = true ∨ answer = true) :
    (cleanUpdateMain confirmPrompt answer depth).exitCode = 0 ∧
    (cleanUpdateMain confirmPrompt answer depth).events.filter
        (fun e => !(Event.isPrompt e)) =
      [Event.checkoutAll, Event.resetAll true, Event.checkoutAll,
       Event.cleanAll, Event.updateAll depth] := by
  rcases h with h | h
  · subst h
    simp [cleanUpdateMain, Event.isPrompt, List.filter]
  · subst h
    cases confirmPrompt <;> simp [cleanUpdateMain, Event.isPrompt, List.filter]

/-- Witness for `cleanUpdateMain_sequence`: an affirmative answer to the
triple prompt with update depth 1. -/
theorem cleanUpdateMain_sequence_witness :
    (cleanUpdateMain false true (some 1)).exitCode = 0 ∧
    (cleanUpdateMain false true (some 1)).events.filter
        (fun e => !(Event.isPrompt e)) =
      [Event.checkoutAll, Event.resetAll true, Event.checkoutAll,
       Event.cleanAll, Event.updateAll (some 1)] :=
  cleanUpdateMain_sequence false true (some 1) (Or.inr rfl)

/-- Claim C10: every run of the changed command performs exactly the one
`repo_changed` call whatever the force flag is, the persisted record
after the run does not depend on the flag, and that record is overwritten
with the current qualifier exactly when it differed (the flag affects
only the printed output and the exit code). -/
theorem changedMain_frame (forceChange : Bool) (dest q : String)
    (rec : Option String) :
    (changedMain forceChange dest q rec).1.events =
      [Event.repoChangedCall dest] ∧
    (changedMain forceChange dest q rec).2 = (changedMain false dest q rec).2 ∧
    (changedMain forceChange dest q rec).2 =
      (if rec = some q then rec else some q) := by
  refine ⟨?_, rfl, ?_⟩
  · cases forceChange <;> cases hc : (repo_changed q rec).1.1 <;>
      simp [changedMain, hc]
  · cases rec with
    | none => simp [changedMain, repo_changed]
    | some r =>
      by_cases hr : r = q
      · subst hr
        simp [changedMain, repo_changed]
      · simp [changedMain, repo_changed, hr]

end Releng
